import Mathlib

/-!
Transport layer of `kr` (`src/common/transport/transport.go`).

A shallow embedding of `AWSTransport` (`Setup`, `PushAlert`, `SendMessage`,
`Read`) and of `notifyIfSignatureExpiredErr`, followed by the properties proved
about them.

Conventions of the embedding

* A Go `string` is a Lean `String`; a Go `[]byte` is a `List Byte` with
  `Byte = Fin 256`.
* A Go `error` value is an element of a type `E` carrying its `Error()` text
  (class `GoError`); the nil error is `none`.
* Calls that leave the package (queue backend, push backend, notifier, logger)
  are recorded, in order, in the `trace` of a `World`, next to the state of the
  collaborator that answers them.
* The statement `go func() ...` is embedded as a `Goroutine` value handed back
  by the operation that starts it; `Goroutine.run` is the body of that closure.
  The caller's thread works on the queue backend, the goroutine on the push
  backend; how the two threads interleave is not represented.
-/

namespace Transport

/-! Bytes, errors, events. -/

/-- A Go `byte`. -/
abbrev Byte := Fin 256

/-- What the transport uses of a Go `error`: the text returned by `Error()`. -/
class GoError (E : Type) where
  /-- The description `err.Error()`. -/
  Error : E → String

instance : GoError String where
  Error := id

/-- Modelled from the spec: `socket.Notifier` is declared outside the listed
source; the transport only tests a `*socket.Notifier` against nil and calls
`Notify` on it, so a notifier is an opaque handle naming the sink written to. -/
structure Notifier where
  /-- Identity of the sink. -/
  handle : Nat
  deriving DecidableEq, Repr

/-- The calls the transport makes to its collaborators. -/
inductive Event (E : Type) where
  /-- The call `CreateQueue(name)`. -/
  | createQueue (name : String)
  /-- The call `SendToQueue(name, payload)`. -/
  | sendToQueue (name payload : String)
  /-- The call `ReceiveAndDeleteFromQueue(name)`. -/
  | receiveAndDeleteFromQueue (name : String)
  /-- The call `PushToSNSEndpoint(payload, arn, queue)`. -/
  | pushToSNSEndpoint (payload arn queue : String)
  /-- The call `PushAlertToSNSEndpoint(alertText, payload, arn, queue)`. -/
  | pushAlertToSNSEndpoint (alertText payload arn queue : String)
  /-- The call `notifier.Notify([]byte(msg))`. -/
  | notify (notifier : Notifier) (msg : String)
  /-- The call `log.Log.Error(msg)` or `log.Log.Error(msg, err)`. -/
  | logError (msg : String) (err : Option E)
  deriving DecidableEq, Repr

/-- State of one collaborator together with the calls made so far. -/
structure World (S E : Type) where
  /-- State of the backend that answers the calls. -/
  state : S
  /-- Calls made so far, oldest first. -/
  trace : List (Event E)

/-! Transit encoding: `encoding/base64`, `StdEncoding`.

The Go standard library is not part of the repository; the two functions the
transport calls are embedded from `encoding/base64` (RFC 4648 alphabet, `=`
padding, non-strict). Shifts and masks on the 24-bit quantum are written as the
divisions and remainders they compute. A Go string is indexed by byte; a
character outside ASCII is a run of bytes `>= 0x80`, none of which is in the
alphabet, so the decoder rejects it as it rejects the single `Char` here. -/

/-- Modelled from the spec: the transit encoding is standard base64, done by Go's
`encoding/base64`, which the listed source only imports. This is its alphabet
`encodeStd`. -/
def encodeStd : String :=
  "ABCDEFGHIJKLMNOPQRSTUVWXYZabcdefghijklmnopqrstuvwxyz0123456789+/"

/-- Modelled from the spec: the table lookup `enc.encode[n]` of `encoding/base64`. -/
def encodeChar (n : Nat) : Char := encodeStd.toList.getD n 'A'

/-- Modelled from the spec: the table lookup `enc.decodeMap[c]` of
`encoding/base64`: the index of `c` in the alphabet, `0xff`
for every other character. -/
def decodeMap (c : Char) : Nat :=
  let i := encodeStd.toList.indexOf c
  if i < 64 then i else 0xff

/-- Modelled from the spec: the loop of `Encoding.Encode` of `encoding/base64`: three bytes become four characters, a final
block of one or two bytes is padded with `=`. -/
def encodeChars : List Byte → List Char
  | [] => []
  | [a] =>
    let val := a.val * 65536
    [encodeChar (val / 262144 % 64), encodeChar (val / 4096 % 64), '=', '=']
  | [a, b] =>
    let val := a.val * 65536 + b.val * 256
    [encodeChar (val / 262144 % 64), encodeChar (val / 4096 % 64),
      encodeChar (val / 64 % 64), '=']
  | a :: b :: c :: rest =>
    let val := a.val * 65536 + b.val * 256 + c.val
    encodeChar (val / 262144 % 64) :: encodeChar (val / 4096 % 64) ::
      encodeChar (val / 64 % 64) :: encodeChar (val % 64) :: encodeChars rest

/-- Modelled from the spec: the call `base64.StdEncoding.EncodeToString(src)`,
the transit encoding of a ciphertext. -/
def EncodeToString (src : List Byte) : String := String.mk (encodeChars src)

/-- Modelled from the spec: the error `base64.CorruptInputError` (its offset is
not represented). -/
inductive CorruptInputError where
  /-- The input is not a base64 text. -/
  | corrupt
  deriving DecidableEq, Repr

/-- Modelled from the spec: the inner loops of `decodeQuantum` of
`encoding/base64` that skip `\n` and `\r`. -/
def skipNewlines : List Char → List Char
  | [] => []
  | c :: rest => if c = '\n' ∨ c = '\r' then skipNewlines rest else c :: rest

/-- Modelled from the spec: the 24-bit value
`dbuf[0]<<18 | dbuf[1]<<12 | dbuf[2]<<6 | dbuf[3]` of `decodeQuantum`. -/
def quantumVal (d0 d1 d2 d3 : Nat) : Nat := d0 * 262144 + d1 * 4096 + d2 * 64 + d3

/-- Modelled from the spec: the loop of `Encoding.Decode` over `decodeQuantum`
of `encoding/base64`: `dbuf` holds the
sextets read so far for the current quantum, `out` the bytes already written.
Line breaks are skipped anywhere; the input must end on a quantum boundary;
padding closes the input. -/
def decodeLoop : List Char → List Nat → List Byte → Except CorruptInputError (List Byte)
  | [], [], out => .ok out
  | [], _ :: _, _ => .error .corrupt
  | c :: rest, dbuf, out =>
    if decodeMap c ≠ 0xff then
      match dbuf with
      | [d0, d1, d2] =>
        let val := quantumVal d0 d1 d2 (decodeMap c)
        decodeLoop rest []
          (out ++ [Fin.ofNat (val / 65536), Fin.ofNat (val / 256), Fin.ofNat val])
      | _ => decodeLoop rest (dbuf ++ [decodeMap c]) out
    else if c = '\n' ∨ c = '\r' then decodeLoop rest dbuf out
    else if c ≠ '=' then .error .corrupt
    else
      match dbuf with
      | [d0, d1] =>
        match skipNewlines rest with
        | [] => .error .corrupt
        | c2 :: rest2 =>
          if c2 ≠ '=' then .error .corrupt
          else
            match skipNewlines rest2 with
            | [] => .ok (out ++ [Fin.ofNat (quantumVal d0 d1 0 0 / 65536)])
            | _ :: _ => .error .corrupt
      | [d0, d1, d2] =>
        match skipNewlines rest with
        | [] =>
          let val := quantumVal d0 d1 d2 0
          .ok (out ++ [Fin.ofNat (val / 65536), Fin.ofNat (val / 256)])
        | _ :: _ => .error .corrupt
      | _ => .error .corrupt

/-- Modelled from the spec: the call `base64.StdEncoding.DecodeString(s)`, the
decoding from transit encoding. Go also hands back the bytes
decoded before the error; `Read` discards them, so an error carries none. -/
def DecodeString (s : String) : Except CorruptInputError (List Byte) :=
  decodeLoop s.toList [] []

/-- Modelled from the spec: the call `strings.Contains(s, substr)` of the Go
standard library, on character lists: `substr` starts at some position of `s`. -/
def containsChars : List Char → List Char → Bool
  | [], substr => substr.isEmpty
  | c :: rest, substr => substr.isPrefixOf (c :: rest) || containsChars rest substr

/-- Modelled from the spec: the call `strings.Contains(s, substr)`, the match of
an error text against a known substring. -/
def stringsContains (s substr : String) : Bool := containsChars s.toList substr.toList

/-! Collaborators. -/

/-- Modelled from the spec: the pairing context `PairingSecret` of package
`protocol`, as far as the transport reads it: the two queue names, the
encryption capability (the pair `(ctxt, err)` that the one call of
`EncryptMessage` made by an operation returns) and the nullable push endpoint
`SnsEndpointARN`. -/
structure PairingSecret (E : Type) where
  /-- The method `SQSSendQueueName()`. -/
  SQSSendQueueName : String
  /-- The method `SQSRecvQueueName()`. -/
  SQSRecvQueueName : String
  /-- The method `EncryptMessage(message)`. -/
  EncryptMessage : List Byte → List Byte × Option E
  /-- The field `SnsEndpointARN`, nil when no endpoint is registered. -/
  SnsEndpointARN : Option String

/-- Modelled from the spec: `GetSNSEndpointARN()` of package `protocol`, the
copy of the endpoint field taken under the context's lock. -/
def PairingSecret.GetSNSEndpointARN {E : Type} (ps : PairingSecret E) : Option String :=
  ps.SnsEndpointARN

/-- Modelled from the spec: the queue backend of package `aws`, a state machine
over `S` answering create, enqueue and receive-and-delete-all. -/
structure QueueBackend (S E : Type) where
  /-- The error result of `CreateQueue(name)`. -/
  CreateQueue : String → S → Option E × S
  /-- The result of `SendToQueue(name, payload)`. -/
  SendToQueue : String → String → S → Option E × S
  /-- The results `(messages, err)` of `ReceiveAndDeleteFromQueue(name)`. -/
  ReceiveAndDeleteFromQueue : String → S → (List String × Option E) × S

/-- Modelled from the spec: the push backend of package `aws`, a state machine
over `P` answering the silent and the alerted notification. -/
structure PushBackend (P E : Type) where
  /-- The result of `PushToSNSEndpoint(payload, arn, queue)`. -/
  PushToSNSEndpoint : String → String → String → P → Option E × P
  /-- The result of `PushAlertToSNSEndpoint(alertText, payload, arn, queue)`. -/
  PushAlertToSNSEndpoint : String → String → String → String → P → Option E × P

/-- Modelled from the spec: the colouring helpers `Red`, `Yellow` and the
constant `NTP_UPDATE_CMD` of package `util`. -/
structure Util where
  /-- The helper `Red`. -/
  Red : String → String
  /-- The helper `Yellow`. -/
  Yellow : String → String
  /-- The constant `NTP_UPDATE_CMD`. -/
  NTP_UPDATE_CMD : String

section Calls

variable {S P E : Type}

/-- The call `CreateQueue(name)`, recorded. -/
def CreateQueue (qb : QueueBackend S E) (name : String) (w : World S E) :
    Option E × World S E :=
  let r := qb.CreateQueue name w.state
  (r.1, ⟨r.2, w.trace ++ [Event.createQueue name]⟩)

/-- The call `SendToQueue(name, payload)`, recorded. -/
def SendToQueue (qb : QueueBackend S E) (name payload : String) (w : World S E) :
    Option E × World S E :=
  let r := qb.SendToQueue name payload w.state
  (r.1, ⟨r.2, w.trace ++ [Event.sendToQueue name payload]⟩)

/-- The call `ReceiveAndDeleteFromQueue(name)`, recorded. -/
def ReceiveAndDeleteFromQueue (qb : QueueBackend S E) (name : String) (w : World S E) :
    (List String × Option E) × World S E :=
  let r := qb.ReceiveAndDeleteFromQueue name w.state
  (r.1, ⟨r.2, w.trace ++ [Event.receiveAndDeleteFromQueue name]⟩)

/-- The call `PushToSNSEndpoint(payload, arn, queue)`, recorded. -/
def PushToSNSEndpoint (pb : PushBackend P E) (payload arn queue : String) (w : World P E) :
    Option E × World P E :=
  let r := pb.PushToSNSEndpoint payload arn queue w.state
  (r.1, ⟨r.2, w.trace ++ [Event.pushToSNSEndpoint payload arn queue]⟩)

/-- The call `PushAlertToSNSEndpoint(alertText, payload, arn, queue)`, recorded. -/
def PushAlertToSNSEndpoint (pb : PushBackend P E) (alertText payload arn queue : String)
    (w : World P E) : Option E × World P E :=
  let r := pb.PushAlertToSNSEndpoint alertText payload arn queue w.state
  (r.1, ⟨r.2, w.trace ++ [Event.pushAlertToSNSEndpoint alertText payload arn queue]⟩)

/-- A call of `log.Log.Error`, recorded. -/
def logError (msg : String) (err : Option E) (w : World S E) : World S E :=
  ⟨w.state, w.trace ++ [Event.logError msg err]⟩

/-- The call `notifier.Notify([]byte(msg))`, recorded. -/
def Notify (notifier : Notifier) (msg : String) (w : World S E) : World S E :=
  ⟨w.state, w.trace ++ [Event.notify notifier msg]⟩

end Calls

/-! The operations of `AWSTransport`. -/

section Operations

variable {S P E : Type}

/-- The method `AWSTransport.Setup`: create the send queue, then the receive
queue, returning at the first error. -/
def Setup (qb : QueueBackend S E) (ps : PairingSecret E) (w : World S E) :
    Option E × World S E :=
  match CreateQueue qb ps.SQSSendQueueName w with
  | (some err, w1) => (some err, w1)
  | (none, w1) =>
    match CreateQueue qb ps.SQSRecvQueueName w1 with
    | (some err, w2) => (some err, w2)
    | (none, w2) => (none, w2)

/-- The closure of a `go func() ...` statement: which of the two bodies it is
and the variables it captured besides the pairing secret. -/
inductive Goroutine where
  /-- The goroutine started by `PushAlert`. -/
  | pushAlert (alertText ctxtString : String)
  /-- The goroutine started by `SendMessage`. -/
  | sendMessage (ctxtString : String)
  deriving DecidableEq, Repr

/-- What a send operation leaves behind: the returned `err`, the caller's
world, and the goroutine it started, if any. -/
structure SendOutcome (S E : Type) where
  /-- The value returned to the caller. -/
  err : Option E
  /-- Queue backend and trace of the caller's thread after the call. -/
  world : World S E
  /-- The goroutine started by the call. -/
  spawned : Option Goroutine

/-- The bodies of the two goroutines. `ps` is the pairing secret as the
goroutine finds it when it runs: `PushAlert` reads the endpoint through
`GetSNSEndpointARN`, `SendMessage` reads the field between `ps.Lock()` and
`ps.Unlock()`. A push error is logged and nothing else happens. -/
def Goroutine.run (pb : PushBackend P E) (ps : PairingSecret E) :
    Goroutine → World P E → World P E
  | .pushAlert alertText ctxtString, w =>
    match ps.GetSNSEndpointARN with
    | none => w
    | some arn =>
      match PushAlertToSNSEndpoint pb alertText ctxtString arn ps.SQSSendQueueName w with
      | (some pushErr, w1) => logError "Push error:" (some pushErr) w1
      | (none, w1) => w1
  | .sendMessage ctxtString, w =>
    match ps.SnsEndpointARN with
    | none => w
    | some arn =>
      match PushToSNSEndpoint pb ctxtString arn ps.SQSSendQueueName w with
      | (some pushErr, w1) => logError "Push error:" (some pushErr) w1
      | (none, w1) => w1

/-- The method `AWSTransport.PushAlert`. -/
def PushAlert (qb : QueueBackend S E) (ps : PairingSecret E) (alertText : String)
    (message : List Byte) (w : World S E) : SendOutcome S E :=
  match ps.EncryptMessage message with
  | (_, some err) => ⟨some err, w, none⟩
  | (ctxt, none) =>
    let ctxtString := EncodeToString ctxt
    let r := SendToQueue qb ps.SQSSendQueueName ctxtString w
    ⟨r.1, r.2, some (.pushAlert alertText ctxtString)⟩

/-- The method `AWSTransport.SendMessage`. -/
def SendMessage (qb : QueueBackend S E) (ps : PairingSecret E) (message : List Byte)
    (w : World S E) : SendOutcome S E :=
  match ps.EncryptMessage message with
  | (_, some err) => ⟨some err, w, none⟩
  | (ctxt, none) =>
    let ctxtString := EncodeToString ctxt
    let r := SendToQueue qb ps.SQSSendQueueName ctxtString w
    ⟨r.1, r.2, some (.sendMessage ctxtString)⟩

/-- The text handed to `notifier.Notify` by `notifyIfSignatureExpiredErr`. -/
def clockSkewMessage (u : Util) : String :=
  u.Red "Krypton ▶ Your system time is out of sync! Krypton will not work until you have synchronized your system time. Please run "
    ++ u.Yellow u.NTP_UPDATE_CMD ++ u.Red " and try again." ++ "\r\n"

/-- The function `notifyIfSignatureExpiredErr`. -/
def notifyIfSignatureExpiredErr [GoError E] (u : Util) (err : Option E)
    (notifier : Option Notifier) (w : World S E) : World S E :=
  match err, notifier with
  | none, _ => w
  | some _, none => w
  | some e, some n =>
    if stringsContains (GoError.Error e) "Signature expired" then
      Notify n (clockSkewMessage u) w
    else w

/-- The loop `for _, ctxtString := range ctxtStrings` of `Read`: an entry that
does not decode is logged and skipped, the others are appended in order. -/
def decodeEntries : List String → List (List Byte) → World S E →
    List (List Byte) × World S E
  | [], ciphertexts, w => (ciphertexts, w)
  | ctxtString :: rest, ciphertexts, w =>
    match DecodeString ctxtString with
    | .error _ =>
      decodeEntries rest ciphertexts (logError "base64 ciphertext decoding error" none w)
    | .ok ctxt => decodeEntries rest (ciphertexts ++ [ctxt]) w

/-- The method `AWSTransport.Read`. -/
def Read [GoError E] (qb : QueueBackend S E) (u : Util) (notifier : Option Notifier)
    (ps : PairingSecret E) (w : World S E) : (List (List Byte) × Option E) × World S E :=
  match ReceiveAndDeleteFromQueue qb ps.SQSRecvQueueName w with
  | ((ctxtStrings, err), w1) =>
    let w2 := notifyIfSignatureExpiredErr u err notifier w1
    match err with
    | some e => (([], some e), w2)
    | none =>
      let r := decodeEntries ctxtStrings [] w2
      ((r.1, none), r.2)

/-- A send operation together with the goroutine it started, both run to
completion: the returned value, the caller's world and the push world. -/
structure Run (S P E : Type) where
  /-- The value returned to the caller. -/
  err : Option E
  /-- Queue backend and trace of the caller's thread. -/
  caller : World S E
  /-- Push backend and trace of the goroutine. -/
  pusher : World P E

/-- Run the goroutine a send operation started, if it started one. -/
def detached (pb : PushBackend P E) (ps : PairingSecret E) (o : SendOutcome S E)
    (pw : World P E) : Run S P E :=
  match o.spawned with
  | none => ⟨o.err, o.world, pw⟩
  | some g => ⟨o.err, o.world, g.run pb ps pw⟩

end Operations

/-! Concrete collaborators used to evaluate the operations. -/

/-- Modelled from the spec: a queue backend that stores what is enqueued under
each queue name, in order, and hands over and empties a queue on
receive-and-delete-all; no call fails and nothing else consumes a queue. -/
def memoryQueues {E : Type} : QueueBackend (String → List String) E where
  CreateQueue := fun _ q => (none, q)
  SendToQueue := fun name payload q =>
    (none, fun n => if n = name then q n ++ [payload] else q n)
  ReceiveAndDeleteFromQueue := fun name q =>
    ((q name, none), fun n => if n = name then [] else q n)

/-- A queue backend on which every call fails with the error `e`. -/
def failingQueues {E : Type} (e : E) : QueueBackend Unit E where
  CreateQueue := fun _ q => (some e, q)
  SendToQueue := fun _ _ q => (some e, q)
  ReceiveAndDeleteFromQueue := fun _ q => (([], some e), q)

/-- A queue backend that creates the queue `good` and fails with `e` on every
other name; the state counts the queues created. -/
def pickyQueues {E : Type} (good : String) (e : E) : QueueBackend Nat E where
  CreateQueue := fun name q => if name = good then (none, q + 1) else (some e, q)
  SendToQueue := fun _ _ q => (none, q)
  ReceiveAndDeleteFromQueue := fun _ q => (([], none), q)

/-- A push backend on which every notification succeeds; the state counts them. -/
def okPush {E : Type} : PushBackend Nat E where
  PushToSNSEndpoint := fun _ _ _ p => (none, p + 1)
  PushAlertToSNSEndpoint := fun _ _ _ _ p => (none, p + 1)

/-- A push backend on which every notification fails with the error `e`. -/
def failingPush {E : Type} (e : E) : PushBackend Nat E where
  PushToSNSEndpoint := fun _ _ _ p => (some e, p)
  PushAlertToSNSEndpoint := fun _ _ _ _ p => (some e, p)

/-- The pairing of the example: queues `pair-42-send` and `pair-42-recv`, an
encryption that adds one to every byte, and the given push endpoint. -/
def pair42 (arn : Option String) : PairingSecret String where
  SQSSendQueueName := "pair-42-send"
  SQSRecvQueueName := "pair-42-recv"
  EncryptMessage := fun m => (m.map (fun b => b + 1), none)
  SnsEndpointARN := arn

/-- The peer of `pair42`: the two queue names exchanged. -/
def peer42 (arn : Option String) : PairingSecret String where
  SQSSendQueueName := "pair-42-recv"
  SQSRecvQueueName := "pair-42-send"
  EncryptMessage := fun m => (m.map (fun b => b + 1), none)
  SnsEndpointARN := arn

/-- A pairing whose encryption fails with the error `e`. -/
def brokenPair (e : String) : PairingSecret String where
  SQSSendQueueName := "pair-42-send"
  SQSRecvQueueName := "pair-42-recv"
  EncryptMessage := fun _ => ([], some e)
  SnsEndpointARN := some "arn:aws:sns:endpoint/1"

/-- Colouring helpers that leave the text as it is. -/
def plainUtil : Util where
  Red := id
  Yellow := id
  NTP_UPDATE_CMD := "sudo ntpdate -u time.apple.com"

/-- An empty world over the in-memory queues. -/
def emptyQueues : World (String → List String) String := ⟨fun _ => [], []⟩


/-! Reading a trace. -/

/-- Whether an event is a push attempt, silent or alerted. -/
def Event.isPush {E : Type} : Event E → Bool
  | .pushToSNSEndpoint _ _ _ => true
  | .pushAlertToSNSEndpoint _ _ _ _ => true
  | _ => false

/-- Whether an event is a notification through a notifier. -/
def Event.isNotify {E : Type} : Event E → Bool
  | .notify _ _ => true
  | _ => false

/-- The push attempts of a trace, in order. -/
def pushAttempts {E : Type} (t : List (Event E)) : List (Event E) := t.filter Event.isPush

/-- The notifications of a trace, in order. -/
def notifications {E : Type} (t : List (Event E)) : List (Event E) := t.filter Event.isNotify

/-- The entries of a batch that `DecodeString` accepts, decoded, in order. -/
def decodable (ctxtStrings : List String) : List (List Byte) :=
  ctxtStrings.filterMap (fun s => (DecodeString s).toOption)

/-- The number of entries of a batch that `DecodeString` rejects. -/
def malformed (ctxtStrings : List String) : Nat :=
  ctxtStrings.countP (fun s => (DecodeString s).toOption.isNone)

end Transport

/-! Properties. -/
namespace Transport

theorem decodeMap_encodeChar (n : Nat) (h : n < 64) :
    decodeMap (encodeChar n) = n ∧ decodeMap (encodeChar n) ≠ 0xff := by
  have key : ∀ m : Fin 64, decodeMap (encodeChar m.val) = m.val ∧
      decodeMap (encodeChar m.val) ≠ 0xff := by decide
  exact key ⟨n, h⟩

theorem decodeMap_pad : decodeMap '=' = 0xff := by decide

theorem decodeLoop_sextet (n : Nat) (h : n < 64) (rest : List Char) (dbuf : List Nat)
    (out : List Byte) (hd : dbuf.length < 3) :
    decodeLoop (encodeChar n :: rest) dbuf out = decodeLoop rest (dbuf ++ [n]) out := by
  obtain ⟨h1, h2⟩ := decodeMap_encodeChar n h
  have hn : n ≠ 255 := by omega
  match dbuf, hd with
  | [], _ => simp [decodeLoop, h1, hn]
  | [_], _ => simp [decodeLoop, h1, hn]
  | [_, _], _ => simp [decodeLoop, h1, hn]

theorem decodeLoop_last_sextet (n : Nat) (h : n < 64) (rest : List Char) (d0 d1 d2 : Nat)
    (out : List Byte) :
    decodeLoop (encodeChar n :: rest) [d0, d1, d2] out =
      decodeLoop rest [] (out ++ [Fin.ofNat (quantumVal d0 d1 d2 n / 65536),
        Fin.ofNat (quantumVal d0 d1 d2 n / 256), Fin.ofNat (quantumVal d0 d1 d2 n)]) := by
  obtain ⟨h1, h2⟩ := decodeMap_encodeChar n h
  have hn : n ≠ 255 := by omega
  simp [decodeLoop, h1, hn]

theorem byte_ofNat_eq (a : Byte) (n : Nat) (h : n % 256 = a.val) : (Fin.ofNat n : Byte) = a := by
  apply Fin.ext
  simpa [Fin.ofNat] using h

theorem decodeLoop_encodeChars (b : List Byte) :
    ∀ out : List Byte, decodeLoop (encodeChars b) [] out = .ok (out ++ b) := by
  induction b using encodeChars.induct with
  | case1 => intro out; simp [encodeChars, decodeLoop]
  | case2 a =>
    intro out
    have ha := a.isLt
    simp only [encodeChars]
    rw [decodeLoop_sextet _ (Nat.mod_lt _ (by decide)) _ _ _ (by simp),
      decodeLoop_sextet _ (Nat.mod_lt _ (by decide)) _ _ _ (by simp)]
    simp only [List.nil_append, List.singleton_append, decodeLoop, decodeMap_pad, skipNewlines]
    simp [skipNewlines]
    apply byte_ofNat_eq
    simp only [quantumVal]
    omega
  | case3 a b =>
    intro out
    have ha := a.isLt
    have hb := b.isLt
    simp only [encodeChars]
    rw [decodeLoop_sextet _ (Nat.mod_lt _ (by decide)) _ _ _ (by simp),
      decodeLoop_sextet _ (Nat.mod_lt _ (by decide)) _ _ _ (by simp),
      decodeLoop_sextet _ (Nat.mod_lt _ (by decide)) _ _ _ (by simp)]
    simp only [List.nil_append, List.singleton_append, List.cons_append, decodeLoop, decodeMap_pad, skipNewlines]
    simp [skipNewlines]
    constructor <;> (apply byte_ofNat_eq; simp only [quantumVal]; omega)
  | case4 a b c rest ih =>
    intro out
    have ha := a.isLt
    have hb := b.isLt
    have hc := c.isLt
    simp only [encodeChars]
    rw [decodeLoop_sextet _ (Nat.mod_lt _ (by decide)) _ _ _ (by simp),
      decodeLoop_sextet _ (Nat.mod_lt _ (by decide)) _ _ _ (by simp),
      decodeLoop_sextet _ (Nat.mod_lt _ (by decide)) _ _ _ (by simp)]
    simp only [List.nil_append, List.singleton_append, List.cons_append]
    rw [decodeLoop_last_sextet _ (Nat.mod_lt _ (by decide)), ih]
    have e1 : (Fin.ofNat (quantumVal ((a.val * 65536 + b.val * 256 + c.val) / 262144 % 64)
        ((a.val * 65536 + b.val * 256 + c.val) / 4096 % 64)
        ((a.val * 65536 + b.val * 256 + c.val) / 64 % 64)
        ((a.val * 65536 + b.val * 256 + c.val) % 64) / 65536) : Byte) = a := by
      apply byte_ofNat_eq; simp only [quantumVal]; omega
    have e2 : (Fin.ofNat (quantumVal ((a.val * 65536 + b.val * 256 + c.val) / 262144 % 64)
        ((a.val * 65536 + b.val * 256 + c.val) / 4096 % 64)
        ((a.val * 65536 + b.val * 256 + c.val) / 64 % 64)
        ((a.val * 65536 + b.val * 256 + c.val) % 64) / 256) : Byte) = b := by
      apply byte_ofNat_eq; simp only [quantumVal]; omega
    have e3 : (Fin.ofNat (quantumVal ((a.val * 65536 + b.val * 256 + c.val) / 262144 % 64)
        ((a.val * 65536 + b.val * 256 + c.val) / 4096 % 64)
        ((a.val * 65536 + b.val * 256 + c.val) / 64 % 64)
        ((a.val * 65536 + b.val * 256 + c.val) % 64)) : Byte) = c := by
      apply byte_ofNat_eq; simp only [quantumVal]; omega
    rw [e1, e2, e3]
    simp

theorem DecodeString_EncodeToString (b : List Byte) :
    DecodeString (EncodeToString b) = .ok b := by
  simp [DecodeString, EncodeToString, decodeLoop_encodeChars]


section ReadLemmas

variable {S E : Type}

theorem decodeEntries_fst (ctxtStrings : List String) :
    ∀ (acc : List (List Byte)) (w : World S E),
      (decodeEntries ctxtStrings acc w).1 = acc ++ decodable ctxtStrings := by
  induction ctxtStrings with
  | nil => intro acc w; simp [decodeEntries, decodable]
  | cons s rest ih =>
    intro acc w
    cases h : DecodeString s with
    | error e => simp [decodeEntries, h, ih, decodable, Except.toOption]
    | ok c => simp [decodeEntries, h, ih, decodable, Except.toOption]

theorem decodeEntries_notifications (ctxtStrings : List String) :
    ∀ (acc : List (List Byte)) (w : World S E),
      notifications (decodeEntries ctxtStrings acc w).2.trace = notifications w.trace := by
  induction ctxtStrings with
  | nil => intro acc w; simp [decodeEntries]
  | cons s rest ih =>
    intro acc w
    cases h : DecodeString s with
    | error e =>
      simp only [decodeEntries, h]
      rw [ih]
      simp [logError, notifications, Event.isNotify]
    | ok c =>
      simp only [decodeEntries, h]
      rw [ih]

theorem decodable_length (ctxtStrings : List String) :
    (decodable ctxtStrings).length + malformed ctxtStrings = ctxtStrings.length := by
  induction ctxtStrings with
  | nil => simp [decodable, malformed]
  | cons s rest ih =>
    simp only [decodable, malformed] at ih ⊢
    cases h : DecodeString s with
    | error e =>
      simp [List.filterMap_cons, List.countP_cons, h, Except.toOption] at ih ⊢
      omega
    | ok c =>
      simp [List.filterMap_cons, List.countP_cons, h, Except.toOption] at ih ⊢
      omega

theorem read_of_batch [GoError E] (qb : QueueBackend S E) (u : Util)
    (notifier : Option Notifier) (ps : PairingSecret E) (w : World S E)
    (ctxtStrings : List String) (s' : S)
    (hrecv : qb.ReceiveAndDeleteFromQueue ps.SQSRecvQueueName w.state =
      ((ctxtStrings, none), s')) :
    (Read qb u notifier ps w).1 = (decodable ctxtStrings, none) := by
  simp [Read, ReceiveAndDeleteFromQueue, hrecv, decodeEntries_fst]

end ReadLemmas

/-- C3: when receive-and-delete-all succeeds with a batch, `Read` returns a nil
error and exactly the decodings of the entries that `DecodeString` accepts, in
the order of the batch; each rejected entry is left out and nothing is added,
so the result is shorter than the batch by the number of rejected entries. -/
theorem read_returns_decodable_entries {S E : Type} [GoError E] (qb : QueueBackend S E)
    (u : Util) (notifier : Option Notifier) (ps : PairingSecret E) (w : World S E)
    (ctxtStrings : List String) (s' : S)
    (hrecv : qb.ReceiveAndDeleteFromQueue ps.SQSRecvQueueName w.state =
      ((ctxtStrings, none), s')) :
    (Read qb u notifier ps w).1 = (decodable ctxtStrings, none) ∧
    (Read qb u notifier ps w).1.1.length + malformed ctxtStrings = ctxtStrings.length := by
  have h := read_of_batch qb u notifier ps w ctxtStrings s' hrecv
  exact ⟨h, by rw [h]; exact decodable_length ctxtStrings⟩

/-- Witness of C3: a batch of three entries, the second malformed, read from the
in-memory queue: the two valid entries come back decoded, in order. -/
theorem read_returns_decodable_entries_witness :
    (Read memoryQueues plainUtil none (pair42 none)
      ⟨fun n => if n = "pair-42-recv" then ["aGk=", "not base64!", "eW8="] else [], []⟩).1
      = ([[104, 105], [121, 111]], none) ∧
    malformed ["aGk=", "not base64!", "eW8="] = 1 := by
  have h := read_returns_decodable_entries memoryQueues plainUtil none (pair42 none)
    ⟨fun n => if n = "pair-42-recv" then ["aGk=", "not base64!", "eW8="] else [], []⟩
    ["aGk=", "not base64!", "eW8="]
    (fun n => if n = "pair-42-recv" then [] else
      (fun n => if n = "pair-42-recv" then ["aGk=", "not base64!", "eW8="] else []) n) rfl
  refine ⟨?_, by decide⟩
  rw [h.1]
  rfl


/-- C1: when encryption succeeds, the value `SendMessage` and `PushAlert` return
is the result of the enqueue onto the send queue (nil or its error, as it is),
whatever endpoint is registered and whatever the push backend answers to the
goroutine: two runs that differ only there return the same value. -/
theorem send_result_is_enqueue_outcome {S P Q E : Type} (qb : QueueBackend S E)
    (pb : PushBackend P E) (pb' : PushBackend Q E) (ps : PairingSecret E)
    (arn arn' : Option String) (alertText : String) (message c : List Byte)
    (w : World S E) (pw : World P E) (pw' : World Q E)
    (henc : ps.EncryptMessage message = (c, none)) :
    (detached pb { ps with SnsEndpointARN := arn }
        (SendMessage qb { ps with SnsEndpointARN := arn } message w) pw).err
      = (qb.SendToQueue ps.SQSSendQueueName (EncodeToString c) w.state).1 ∧
    (detached pb' { ps with SnsEndpointARN := arn' }
        (SendMessage qb { ps with SnsEndpointARN := arn' } message w) pw').err
      = (qb.SendToQueue ps.SQSSendQueueName (EncodeToString c) w.state).1 ∧
    (detached pb { ps with SnsEndpointARN := arn }
        (PushAlert qb { ps with SnsEndpointARN := arn } alertText message w) pw).err
      = (qb.SendToQueue ps.SQSSendQueueName (EncodeToString c) w.state).1 ∧
    (detached pb' { ps with SnsEndpointARN := arn' }
        (PushAlert qb { ps with SnsEndpointARN := arn' } alertText message w) pw').err
      = (qb.SendToQueue ps.SQSSendQueueName (EncodeToString c) w.state).1 := by
  simp [detached, SendMessage, PushAlert, SendToQueue, henc]

/-- Witness of C1: the enqueue fails with `QueueDoesNotExist`; with an endpoint
and a working push backend, and without endpoint over a failing push backend,
both operations return that error. -/
theorem send_result_is_enqueue_outcome_witness :
    (detached okPush (pair42 (some "arn:1"))
        (SendMessage (failingQueues "QueueDoesNotExist") (pair42 (some "arn:1")) [1, 2, 3]
          ⟨(), []⟩) ⟨0, []⟩).err = some "QueueDoesNotExist" ∧
    (detached (failingPush "EndpointDisabled") (pair42 none)
        (SendMessage (failingQueues "QueueDoesNotExist") (pair42 none) [1, 2, 3]
          ⟨(), []⟩) ⟨0, []⟩).err = some "QueueDoesNotExist" ∧
    (detached okPush (pair42 (some "arn:1"))
        (PushAlert (failingQueues "QueueDoesNotExist") (pair42 (some "arn:1")) "hello"
          [1, 2, 3] ⟨(), []⟩) ⟨0, []⟩).err = some "QueueDoesNotExist" ∧
    (detached (failingPush "EndpointDisabled") (pair42 none)
        (PushAlert (failingQueues "QueueDoesNotExist") (pair42 none) "hello"
          [1, 2, 3] ⟨(), []⟩) ⟨0, []⟩).err = some "QueueDoesNotExist" :=
  send_result_is_enqueue_outcome (failingQueues "QueueDoesNotExist") okPush
    (failingPush "EndpointDisabled") (pair42 none) (some "arn:1") none "hello"
    [1, 2, 3] [2, 3, 4] ⟨(), []⟩ ⟨0, []⟩ ⟨0, []⟩ rfl

/-- C2: when encryption fails, `SendMessage` and `PushAlert` return the
encryption error as it is, leave the caller's world (queue backend state and
trace) untouched, start no goroutine, and the push world stays untouched. -/
theorem encryption_failure_touches_no_channel {S P E : Type} (qb : QueueBackend S E)
    (pb : PushBackend P E) (ps : PairingSecret E) (alertText : String)
    (message c : List Byte) (e : E) (w : World S E) (pw : World P E)
    (henc : ps.EncryptMessage message = (c, some e)) :
    SendMessage qb ps message w = ⟨some e, w, none⟩ ∧
    PushAlert qb ps alertText message w = ⟨some e, w, none⟩ ∧
    detached pb ps (SendMessage qb ps message w) pw = ⟨some e, w, pw⟩ ∧
    detached pb ps (PushAlert qb ps alertText message w) pw = ⟨some e, w, pw⟩ := by
  simp [detached, SendMessage, PushAlert, henc]

/-- Witness of C2: a pairing with a registered endpoint whose encryption fails
with `no session key`: the error comes back and both traces stay empty. -/
theorem encryption_failure_touches_no_channel_witness :
    (SendMessage memoryQueues (brokenPair "no session key") [1, 2, 3] emptyQueues).err
      = some "no session key" ∧
    (detached (okPush : PushBackend Nat String) (brokenPair "no session key")
      (PushAlert memoryQueues (brokenPair "no session key") "hello" [1, 2, 3] emptyQueues)
      ⟨0, []⟩).pusher.trace = [] ∧
    (detached (okPush : PushBackend Nat String) (brokenPair "no session key")
      (PushAlert memoryQueues (brokenPair "no session key") "hello" [1, 2, 3] emptyQueues)
      ⟨0, []⟩).caller.trace = [] := by
  have h := encryption_failure_touches_no_channel memoryQueues
    (okPush : PushBackend Nat String) (brokenPair "no session key") "hello" [1, 2, 3] []
    "no session key" emptyQueues ⟨0, []⟩ rfl
  refine ⟨?_, ?_, ?_⟩
  · rw [h.1]
  · rw [h.2.2.2]
  · rw [h.2.2.2]; rfl

/-- C4: `Read` adds exactly one notification, through the given notifier and
carrying the clock-skew text, when the receive error's description contains
`Signature expired` and a notifier is present; it adds none when the notifier
is nil, when the description does not contain that text, or when there is no
error; and whenever the receive fails, `Read` returns that error as it is. -/
theorem read_notifies_on_signature_expired {S E : Type} [GoError E]
    (qb : QueueBackend S E) (u : Util) (notifier : Option Notifier)
    (ps : PairingSecret E) (w : World S E) (ctxtStrings : List String) (err : Option E)
    (s' : S)
    (hrecv : qb.ReceiveAndDeleteFromQueue ps.SQSRecvQueueName w.state =
      ((ctxtStrings, err), s')) :
    (∀ e n, err = some e → notifier = some n →
      stringsContains (GoError.Error e) "Signature expired" = true →
      notifications (Read qb u notifier ps w).2.trace
        = notifications w.trace ++ [Event.notify n (clockSkewMessage u)]) ∧
    (notifier = none →
      notifications (Read qb u notifier ps w).2.trace = notifications w.trace) ∧
    (∀ e, err = some e → stringsContains (GoError.Error e) "Signature expired" = false →
      notifications (Read qb u notifier ps w).2.trace = notifications w.trace) ∧
    (err = none →
      notifications (Read qb u notifier ps w).2.trace = notifications w.trace) ∧
    (∀ e, err = some e → (Read qb u notifier ps w).1 = ([], some e)) := by
  refine ⟨?_, ?_, ?_, ?_, ?_⟩
  · intro e n he hn hc
    subst he hn
    simp [Read, ReceiveAndDeleteFromQueue, hrecv, notifyIfSignatureExpiredErr, hc, Notify,
      notifications, Event.isNotify]
  · intro hn
    subst hn
    cases err with
    | none =>
      simp only [Read, ReceiveAndDeleteFromQueue, hrecv, notifyIfSignatureExpiredErr]
      rw [decodeEntries_notifications]
      simp [notifications, Event.isNotify]
    | some e =>
      simp [Read, ReceiveAndDeleteFromQueue, hrecv, notifyIfSignatureExpiredErr,
        notifications, Event.isNotify]
  · intro e he hc
    subst he
    cases notifier with
    | none =>
      simp [Read, ReceiveAndDeleteFromQueue, hrecv, notifyIfSignatureExpiredErr,
        notifications, Event.isNotify]
    | some n =>
      simp [Read, ReceiveAndDeleteFromQueue, hrecv, notifyIfSignatureExpiredErr, hc,
        notifications, Event.isNotify]
  · intro he
    subst he
    simp only [Read, ReceiveAndDeleteFromQueue, hrecv, notifyIfSignatureExpiredErr]
    rw [decodeEntries_notifications]
    simp [notifications, Event.isNotify]
  · intro e he
    subst he
    simp [Read, ReceiveAndDeleteFromQueue, hrecv]

/-- Witness of C4: the receive fails with a `Signature expired` error and a
notifier is given: one notification, and the error is returned. -/
theorem read_notifies_on_signature_expired_witness :
    notifications (Read (failingQueues "SignatureDoesNotMatch: Signature expired: 20190101")
      plainUtil (some ⟨7⟩) (pair42 none) ⟨(), []⟩).2.trace
      = [Event.notify ⟨7⟩ (clockSkewMessage plainUtil)] ∧
    (Read (failingQueues "SignatureDoesNotMatch: Signature expired: 20190101")
      plainUtil (some ⟨7⟩) (pair42 none) ⟨(), []⟩).1
      = ([], some "SignatureDoesNotMatch: Signature expired: 20190101") := by
  have h := read_notifies_on_signature_expired
    (failingQueues "SignatureDoesNotMatch: Signature expired: 20190101")
    plainUtil (some ⟨7⟩) (pair42 none) ⟨(), []⟩ []
    (some "SignatureDoesNotMatch: Signature expired: 20190101") () rfl
  exact ⟨h.1 _ ⟨7⟩ rfl rfl (by decide), h.2.2.2.2 _ rfl⟩

/-- C5: when receive-and-delete-all fails, `Read` returns the backend error as
it is and no ciphertexts, for every notifier (present or nil) and every error
text. -/
theorem read_returns_backend_error {S E : Type} [GoError E] (qb : QueueBackend S E)
    (u : Util) (notifier : Option Notifier) (ps : PairingSecret E) (w : World S E)
    (ctxtStrings : List String) (e : E) (s' : S)
    (hrecv : qb.ReceiveAndDeleteFromQueue ps.SQSRecvQueueName w.state =
      ((ctxtStrings, some e), s')) :
    (Read qb u notifier ps w).1 = ([], some e) := by
  simp [Read, ReceiveAndDeleteFromQueue, hrecv]

/-- Witness of C5: the receive fails with `AccessDenied` and no notifier is
given. -/
theorem read_returns_backend_error_witness :
    (Read (failingQueues "AccessDenied") plainUtil none (pair42 none) ⟨(), []⟩).1
      = ([], some "AccessDenied") :=
  read_returns_backend_error (failingQueues "AccessDenied") plainUtil none (pair42 none)
    ⟨(), []⟩ [] "AccessDenied" () rfl


/-- C6, as stated, fails: on a backend that refuses to create the send queue,
`Setup` for the pairing `pair-42-send` / `pair-42-recv` makes one
queue-creation call, not two. -/
theorem setup_one_creation_when_send_queue_fails :
    (Setup (failingQueues "AccessDenied") (pair42 none) ⟨(), []⟩).2.trace
      = [Event.createQueue "pair-42-send"] ∧
    (Setup (failingQueues "AccessDenied") (pair42 none) ⟨(), []⟩).2.trace
      ≠ [Event.createQueue "pair-42-send", Event.createQueue "pair-42-recv"] := by
  decide

/-- C6, amended: when the creation of the send queue succeeds, `Setup` makes
exactly two queue-creation calls and no other call, the first with the send
queue name and the second with the receive queue name. -/
theorem setup_creates_both_queues {S E : Type} (qb : QueueBackend S E)
    (ps : PairingSecret E) (w : World S E)
    (hsend : (qb.CreateQueue ps.SQSSendQueueName w.state).1 = none) :
    (Setup qb ps w).2.trace = w.trace ++
      [Event.createQueue ps.SQSSendQueueName, Event.createQueue ps.SQSRecvQueueName] := by
  unfold Setup
  simp only [CreateQueue, hsend]
  cases h2 : (qb.CreateQueue ps.SQSRecvQueueName
      (qb.CreateQueue ps.SQSSendQueueName w.state).2).1 <;> simp

/-- Witness of C6, amended: the in-memory backend and the pairing
`pair-42-send` / `pair-42-recv`. -/
theorem setup_creates_both_queues_witness :
    (Setup memoryQueues (pair42 none) emptyQueues).2.trace
      = [Event.createQueue "pair-42-send", Event.createQueue "pair-42-recv"] :=
  setup_creates_both_queues memoryQueues (pair42 none) emptyQueues rfl

/-- C7: `Setup` fails fast and does not roll back. If creating the send queue
fails, that error is returned and the only backend call is that creation. If it
succeeds and creating the receive queue fails, that error is returned and the
only backend calls are the two creations, the backend being left as the second
creation left it. `Setup` returns nil exactly when both creations succeed. -/
theorem setup_fails_fast {S E : Type} (qb : QueueBackend S E) (ps : PairingSecret E)
    (w : World S E) :
    (∀ e, (qb.CreateQueue ps.SQSSendQueueName w.state).1 = some e →
      Setup qb ps w = (some e, ⟨(qb.CreateQueue ps.SQSSendQueueName w.state).2,
        w.trace ++ [Event.createQueue ps.SQSSendQueueName]⟩)) ∧
    (∀ e, (qb.CreateQueue ps.SQSSendQueueName w.state).1 = none →
      (qb.CreateQueue ps.SQSRecvQueueName
        (qb.CreateQueue ps.SQSSendQueueName w.state).2).1 = some e →
      Setup qb ps w = (some e, ⟨(qb.CreateQueue ps.SQSRecvQueueName
          (qb.CreateQueue ps.SQSSendQueueName w.state).2).2,
        w.trace ++ [Event.createQueue ps.SQSSendQueueName,
          Event.createQueue ps.SQSRecvQueueName]⟩)) ∧
    ((Setup qb ps w).1 = none ↔
      ((qb.CreateQueue ps.SQSSendQueueName w.state).1 = none ∧
       (qb.CreateQueue ps.SQSRecvQueueName
        (qb.CreateQueue ps.SQSSendQueueName w.state).2).1 = none)) := by
  refine ⟨?_, ?_, ?_⟩
  · intro e h1
    simp [Setup, CreateQueue, h1]
  · intro e h1 h2
    simp [Setup, CreateQueue, h1, h2]
  · cases h1 : (qb.CreateQueue ps.SQSSendQueueName w.state).1 with
    | some e => simp [Setup, CreateQueue, h1]
    | none =>
      cases h2 : (qb.CreateQueue ps.SQSRecvQueueName
          (qb.CreateQueue ps.SQSSendQueueName w.state).2).1 with
      | some e => simp [Setup, CreateQueue, h1, h2]
      | none => simp [Setup, CreateQueue, h1, h2]

/-- Witness of C7: a backend that creates `pair-42-send` and refuses every other
name: the receive-queue error comes back after two creation calls, the one
created queue is still counted, and nothing else was called. -/
theorem setup_fails_fast_witness :
    Setup (pickyQueues "pair-42-send" "QueueLimitExceeded") (pair42 none) ⟨0, []⟩
      = (some "QueueLimitExceeded",
          ⟨1, [Event.createQueue "pair-42-send", Event.createQueue "pair-42-recv"]⟩) :=
  (setup_fails_fast (pickyQueues "pair-42-send" "QueueLimitExceeded") (pair42 none)
    ⟨0, []⟩).2.1 "QueueLimitExceeded" rfl rfl

/-- C8: decoding the base64 encoding of any byte sequence, the empty one
included, succeeds and gives the sequence back. So, when encryption succeeds
with ciphertext `c`, the payload that `SendMessage` and `PushAlert` enqueue
decodes to `c`, and a `Read` whose batch holds that payload anywhere returns
`c` among its ciphertexts. -/
theorem transit_encoding_round_trip {S T E : Type} [GoError E] (b : List Byte)
    (qb : QueueBackend S E) (ps : PairingSecret E) (alertText : String)
    (message c : List Byte) (w : World S E)
    (qb' : QueueBackend T E) (u : Util) (notifier : Option Notifier)
    (ps' : PairingSecret E) (w' : World T E) (front back : List String) (t' : T)
    (henc : ps.EncryptMessage message = (c, none))
    (hrecv : qb'.ReceiveAndDeleteFromQueue ps'.SQSRecvQueueName w'.state =
      ((front ++ EncodeToString c :: back, none), t')) :
    DecodeString (EncodeToString b) = .ok b ∧
    DecodeString (EncodeToString []) = .ok [] ∧
    (SendMessage qb ps message w).world.trace
      = w.trace ++ [Event.sendToQueue ps.SQSSendQueueName (EncodeToString c)] ∧
    (PushAlert qb ps alertText message w).world.trace
      = w.trace ++ [Event.sendToQueue ps.SQSSendQueueName (EncodeToString c)] ∧
    DecodeString (EncodeToString c) = .ok c ∧
    (Read qb' u notifier ps' w').1
      = (decodable front ++ c :: decodable back, none) := by
  refine ⟨DecodeString_EncodeToString b, DecodeString_EncodeToString [], ?_, ?_,
    DecodeString_EncodeToString c, ?_⟩
  · simp [SendMessage, SendToQueue, henc]
  · simp [PushAlert, SendToQueue, henc]
  · simp [Read, ReceiveAndDeleteFromQueue, hrecv, decodeEntries_fst, decodable,
      List.filterMap_append, List.filterMap_cons, DecodeString_EncodeToString,
      Except.toOption]

/-- Witness of C8: the five bytes `1 2 3 4 5`; the ciphertext `2 3 4` of the
message `1 2 3`, found by `Read` between a malformed and a valid entry. -/
theorem transit_encoding_round_trip_witness :
    DecodeString (EncodeToString [1, 2, 3, 4, 5]) = .ok [1, 2, 3, 4, 5] ∧
    (SendMessage memoryQueues (pair42 none) [1, 2, 3] emptyQueues).world.trace
      = [Event.sendToQueue "pair-42-send" "AgME"] ∧
    (Read memoryQueues plainUtil none (peer42 none)
      ⟨fun n => if n = "pair-42-send" then ["%%%", "AgME", "aGk="] else [], []⟩).1
      = ([[2, 3, 4], [104, 105]], none) := by
  have h := transit_encoding_round_trip [1, 2, 3, 4, 5] memoryQueues (pair42 none) "hello"
    [1, 2, 3] [2, 3, 4] emptyQueues memoryQueues plainUtil none (peer42 none)
    ⟨fun n => if n = "pair-42-send" then ["%%%", "AgME", "aGk="] else [], []⟩
    ["%%%"] ["aGk="]
    (fun n => if n = "pair-42-send" then [] else
      (fun n => if n = "pair-42-send" then ["%%%", "AgME", "aGk="] else []) n) rfl rfl
  refine ⟨h.1, ?_, ?_⟩
  · rw [h.2.2.1]; rfl
  · rw [h.2.2.2.2.2]; rfl


/-- C9, as stated, fails: over the in-memory backend, `SendMessage` on the
pairing `pair-42-send` / `pair-42-recv` succeeds and stores the payload under
`pair-42-send`, and the following `Read` on the same pairing, which empties
`pair-42-recv`, returns no ciphertext at all. -/
theorem read_same_context_misses_message :
    (SendMessage memoryQueues (pair42 none) [1, 2, 3] emptyQueues).err = none ∧
    ((pair42 none).EncryptMessage [1, 2, 3]).1 = [2, 3, 4] ∧
    (Read memoryQueues plainUtil none (pair42 none)
      (SendMessage memoryQueues (pair42 none) [1, 2, 3] emptyQueues).world).1
      = ([], none) ∧
    ((pair42 none).EncryptMessage [1, 2, 3]).1 ∉
      (Read memoryQueues plainUtil none (pair42 none)
        (SendMessage memoryQueues (pair42 none) [1, 2, 3] emptyQueues).world).1.1 := by
  refine ⟨rfl, rfl, rfl, ?_⟩
  have h : (Read memoryQueues plainUtil none (pair42 none)
      (SendMessage memoryQueues (pair42 none) [1, 2, 3] emptyQueues).world).1.1 = [] := rfl
  rw [h]
  exact List.not_mem_nil _

/-- C9, amended: over the in-memory backend, after a successful
`SendMessage(ps, message)` a `Read` on any pairing whose receive queue is the
sender's send queue (the peer's side of the pairing) succeeds and returns a
sequence containing the ciphertext of `message`. -/
theorem send_then_peer_read {E : Type} [GoError E] (u : Util)
    (notifier : Option Notifier) (ps ps' : PairingSecret E) (message : List Byte)
    (w : World (String → List String) E)
    (hsent : (SendMessage memoryQueues ps message w).err = none)
    (hpeer : ps'.SQSRecvQueueName = ps.SQSSendQueueName) :
    (Read memoryQueues u notifier ps' (SendMessage memoryQueues ps message w).world).1.2
      = none ∧
    (ps.EncryptMessage message).1 ∈
      (Read memoryQueues u notifier ps' (SendMessage memoryQueues ps message w).world).1.1 := by
  cases henc : ps.EncryptMessage message with
  | mk c err =>
    cases err with
    | some e => simp [SendMessage, henc] at hsent
    | none =>
      have hrecv : (memoryQueues : QueueBackend (String → List String) E).ReceiveAndDeleteFromQueue
          ps'.SQSRecvQueueName (SendMessage memoryQueues ps message w).world.state
          = ((w.state ps.SQSSendQueueName ++ EncodeToString c :: [], none),
              fun n => if n = ps'.SQSRecvQueueName then [] else
                (SendMessage memoryQueues ps message w).world.state n) := by
        simp [SendMessage, henc, SendToQueue, memoryQueues, hpeer]
      have h := read_of_batch memoryQueues u notifier ps'
        (SendMessage memoryQueues ps message w).world _ _ hrecv
      rw [h]
      simp [decodable, List.filterMap_append, DecodeString_EncodeToString, Except.toOption]

/-- Witness of C9, amended: the message `1 2 3` sent on `pair42` is read by its
peer, whose receive queue is `pair-42-send`. -/
theorem send_then_peer_read_witness :
    (Read memoryQueues plainUtil none (peer42 none)
      (SendMessage memoryQueues (pair42 none) [1, 2, 3] emptyQueues).world).1.2 = none ∧
    [2, 3, 4] ∈ (Read memoryQueues plainUtil none (peer42 none)
      (SendMessage memoryQueues (pair42 none) [1, 2, 3] emptyQueues).world).1.1 :=
  send_then_peer_read plainUtil none (pair42 none) (peer42 none) [1, 2, 3] emptyQueues
    rfl rfl

/-- C10: when encryption succeeds with ciphertext `c`, `SendMessage` and
`PushAlert` each make exactly one call on the caller's thread, the enqueue of
`base64(c)` onto the send queue, and start one goroutine. Run with the endpoint
it finds, that goroutine makes exactly one push attempt when an endpoint is
registered (the silent push for `SendMessage`, the alerted push carrying
`alertText` for `PushAlert`, both with `base64(c)`, the endpoint and the send
queue name) and none when no endpoint is registered, whatever the push backend
answers. -/
theorem send_attempts_each_channel_once {S P E : Type} (qb : QueueBackend S E)
    (pb : PushBackend P E) (ps : PairingSecret E) (snapshot : Option String)
    (alertText : String) (message c : List Byte) (w : World S E) (pw : World P E)
    (henc : ps.EncryptMessage message = (c, none)) :
    (SendMessage qb ps message w).world.trace
      = w.trace ++ [Event.sendToQueue ps.SQSSendQueueName (EncodeToString c)] ∧
    (PushAlert qb ps alertText message w).world.trace
      = w.trace ++ [Event.sendToQueue ps.SQSSendQueueName (EncodeToString c)] ∧
    (SendMessage qb ps message w).spawned = some (.sendMessage (EncodeToString c)) ∧
    (PushAlert qb ps alertText message w).spawned
      = some (.pushAlert alertText (EncodeToString c)) ∧
    pushAttempts (detached pb { ps with SnsEndpointARN := snapshot }
        (SendMessage qb ps message w) pw).pusher.trace
      = pushAttempts pw.trace ++
        (match snapshot with
         | some arn =>
           [Event.pushToSNSEndpoint (EncodeToString c) arn ps.SQSSendQueueName]
         | none => []) ∧
    pushAttempts (detached pb { ps with SnsEndpointARN := snapshot }
        (PushAlert qb ps alertText message w) pw).pusher.trace
      = pushAttempts pw.trace ++
        (match snapshot with
         | some arn =>
           [Event.pushAlertToSNSEndpoint alertText (EncodeToString c) arn
             ps.SQSSendQueueName]
         | none => []) := by
  refine ⟨?_, ?_, ?_, ?_, ?_, ?_⟩
  · simp [SendMessage, SendToQueue, henc]
  · simp [PushAlert, SendToQueue, henc]
  · simp [SendMessage, henc]
  · simp [PushAlert, henc]
  · cases snapshot with
    | none => simp [detached, SendMessage, henc, Goroutine.run]
    | some arn =>
      cases hp : (pb.PushToSNSEndpoint (EncodeToString c) arn ps.SQSSendQueueName
          pw.state).1 <;>
        simp [detached, SendMessage, henc, Goroutine.run, PushToSNSEndpoint, hp, logError,
          pushAttempts, Event.isPush]
  · cases snapshot with
    | none =>
      simp [detached, PushAlert, henc, Goroutine.run, PairingSecret.GetSNSEndpointARN]
    | some arn =>
      cases hp : (pb.PushAlertToSNSEndpoint alertText (EncodeToString c) arn
          ps.SQSSendQueueName pw.state).1 <;>
        simp [detached, PushAlert, henc, Goroutine.run, PairingSecret.GetSNSEndpointARN,
          PushAlertToSNSEndpoint, hp, logError, pushAttempts, Event.isPush]

/-- Witness of C10: `PushAlert` with a registered endpoint over a push backend
that fails: one enqueue, one alerted push, and the failure only logged. -/
theorem send_attempts_each_channel_once_witness :
    (PushAlert memoryQueues (pair42 none) "hello" [1, 2, 3] emptyQueues).world.trace
      = [Event.sendToQueue "pair-42-send" "AgME"] ∧
    pushAttempts (detached (failingPush "EndpointDisabled") (pair42 (some "arn:1"))
        (PushAlert memoryQueues (pair42 none) "hello" [1, 2, 3] emptyQueues)
        ⟨0, []⟩).pusher.trace
      = [Event.pushAlertToSNSEndpoint "hello" "AgME" "arn:1" "pair-42-send"] ∧
    (detached (failingPush "EndpointDisabled") (pair42 (some "arn:1"))
        (PushAlert memoryQueues (pair42 none) "hello" [1, 2, 3] emptyQueues)
        ⟨0, []⟩).pusher.trace
      = [Event.pushAlertToSNSEndpoint "hello" "AgME" "arn:1" "pair-42-send",
         Event.logError "Push error:" (some "EndpointDisabled")] := by
  have h := send_attempts_each_channel_once memoryQueues (failingPush "EndpointDisabled")
    (pair42 none) (some "arn:1") "hello" [1, 2, 3] [2, 3, 4] emptyQueues ⟨0, []⟩ rfl
  refine ⟨?_, ?_, rfl⟩
  · rw [h.2.1]; rfl
  · exact h.2.2.2.2.2

end Transport
